import Mathlib

/- Formal model of the expression calculator in `src/main.rs` (crate
`calculator`).

Numeric values are `f64` in the source and are modelled here as rationals
(ℚ): every numeric computation exercised by a theorem below stays within
small integers, on which IEEE-754 binary64 arithmetic is exact, so the
rational model agrees with the source on those computations.  The places
where the two carriers genuinely differ (division by zero, `%` by zero,
`powf` with a non-integer exponent, decimal fractions that are not binary
fractions) are documented at `Operator.apply` and `parseMatched`; no
theorem below depends on any of them.

The source can terminate the process at five places (`assert!`,
`assert_eq!`, `assert_ne!`, `Option::unwrap`, out-of-bounds indexing);
each such panic site is modelled as `Except.error` carrying a `Fault`
value naming the site, so that "the program panics here on this input"
becomes a provable, executable statement. -/

namespace Calculator

/-- Fault values name the distinct panic sites of `src/main.rs`:
`numberParse` is the `f64::from_str(..).unwrap()` in `tokenize` (line
161); `stackUnderflow` is the `unwrap` in the `Apply` impl for `Vec<f64>`
(lines 188-194); `unmatchedRPar` is the
`assert!(!operator_stack.is_empty(), "Mismatched parentheses")` reached
when a right parenthesis finds no left parenthesis (line 35);
`unclosedLPar` is the `assert_ne!(Operator::LPar, operator, "Mismatched
parentheses")` reached when an unclosed left parenthesis remains at the
end (line 61); `emptyOutput` is the out-of-bounds index `output[0]` on an
empty output vector (line 65). -/
inductive Fault where
  | numberParse
  | stackUnderflow
  | unmatchedRPar
  | unclosedLPar
  | emptyOutput
deriving DecidableEq

/-- Operators, mirroring `enum Operator` (main.rs lines 83-93). -/
inductive Operator where
  | add
  | sub
  | mul
  | div
  | mod
  | exp
  | lpar
  | rpar
deriving DecidableEq

/-- Mirrors `Operator::precedence` (main.rs lines 110-117): Add/Sub = 2,
Mul/Div/Mod = 3, Exp = 4, parentheses fall to the `_ => 0` arm. -/
def Operator.precedence : Operator → Nat
  | .add | .sub => 2
  | .mul | .div | .mod => 3
  | .exp => 4
  | _ => 0

/-- Mirrors `Operator::is_left_associative` (main.rs lines 119-124):
true exactly for Add, Sub, Mul, Div, Mod. -/
def Operator.is_left_associative : Operator → Bool
  | .add | .sub | .mul | .div | .mod => true
  | _ => false

/-- Truncation toward zero of a rational, used to model Rust's `%` on
`f64`, which computes the remainder `lhs - rhs * trunc(lhs / rhs)`. -/
def ratTrunc (q : ℚ) : ℤ :=
  Int.sign q.num * ((q.num.natAbs / q.den : ℕ) : ℤ)

/-- Mirrors `Operator::apply` (main.rs lines 126-136) with `f64` replaced
by ℚ.  Addition, subtraction and multiplication are exact.  Division is
field division; ℚ yields 0 on division by zero where `f64` yields an
infinity or NaN — no theorem below evaluates that case.  `%` is the Rust
float remainder `lhs - rhs * trunc(lhs / rhs)`, with 0 standing in for
the NaN produced when `rhs = 0`.  `^` is `f64::powf`, which coincides
with the exact integer power whenever the exponent is an integer; 0
stands in for the irrational values `powf` takes at non-integer
exponents, which no theorem below reaches.  The `_ => panic!()` arm for
parentheses is unreachable exactly as in the source (parentheses are
never passed to `apply`) and is given the value 0. -/
def Operator.apply (op : Operator) (lhs rhs : ℚ) : ℚ :=
  match op with
  | .add => lhs + rhs
  | .sub => lhs - rhs
  | .mul => lhs * rhs
  | .div => lhs / rhs
  | .mod => if rhs = 0 then 0 else lhs - rhs * (ratTrunc (lhs / rhs) : ℚ)
  | .exp => if rhs.den = 1 then lhs ^ rhs.num else 0
  | _ => 0

/-- Mirrors `enum Token` (main.rs lines 68-72). -/
inductive Token where
  | number (n : ℚ)
  | operator (op : Operator)
deriving DecidableEq

/-- Mirrors `Operator::from_symbol` (main.rs lines 96-108).  `none`
replaces the `_ => panic!()` arm; it simultaneously encodes the operator
character class of the tokenizer regex, since the eight characters mapped
to `some` are exactly the characters the regex alternative
`[+\-*/%^\(\)]` matches, and `tokenize` consults `from_symbol` to decide
whether a character is an operator symbol. -/
def Operator.from_symbol (c : Char) : Option Operator :=
  if c = '+' then some .add
  else if c = '-' then some .sub
  else if c = '*' then some .mul
  else if c = '/' then some .div
  else if c = '%' then some .mod
  else if c = '^' then some .exp
  else if c = '(' then some .lpar
  else if c = ')' then some .rpar
  else none

/-- Numeric value of a run of decimal digit characters. -/
def digitsVal (ds : List Char) : ℕ :=
  ds.foldl (fun a c => 10 * a + (c.toNat - '0'.toNat)) 0

/-- Model of `f64::from_str` (main.rs line 161) restricted to the strings
the number pattern `[0-9]+(.[0-9]+)*` can match — note the unescaped dot,
which matches any character except a newline.  Such a string is a leading
digit run `d0` followed by the groups `gs`, each one separator character
plus a digit run.  Rust's float grammar accepts, among these strings,
exactly: bare digits; digits `.` digits; digits `e`/`E` digits; and
digits `.` digits `e`/`E` digits.  Every other group shape (for instance
`"1a2"`, `"2+3"`, `"1/0"`, `"1 2"`, `"1.2.3"`) makes `from_str` return an
error, which the source turns into a panic via `unwrap` — here
`none`, which `emitNum` turns into `Fault.numberParse`.  Decimal
fractions are read exactly into ℚ where `f64` would round to the nearest
binary64; no theorem below evaluates a fractional literal. -/
def parseMatched (d0 : List Char) (gs : List (Char × List Char)) : Option ℚ :=
  match gs with
  | [] => some (digitsVal d0 : ℚ)
  | [(c, f)] =>
    if c = '.' then some ((digitsVal d0 : ℚ) + (digitsVal f : ℚ) / 10 ^ f.length)
    else if c = 'e' ∨ c = 'E' then some ((digitsVal d0 : ℚ) * 10 ^ digitsVal f)
    else none
  | [(c1, f), (c2, x)] =>
    if c1 = '.' ∧ (c2 = 'e' ∨ c2 = 'E') then
      some (((digitsVal d0 : ℚ) + (digitsVal f : ℚ) / 10 ^ f.length) * 10 ^ digitsVal x)
    else none
  | _ => none

/-- Turn a matched number lexeme into a token, or fail the way the
source's `f64::from_str(number).unwrap()` fails (main.rs line 161). -/
def emitNum (d0 : List Char) (gs : List (Char × List Char)) : Except Fault Token :=
  match parseMatched d0 gs with
  | some q => .ok (Token.number q)
  | none => .error .numberParse

/-- Process one character that is not part of a number match, as the
regex scan does: an operator symbol produces a token (main.rs lines
163-166), any other character is skipped and produces nothing. -/
def handleChar (c : Char) (ts : List Token) : List Token :=
  match Operator.from_symbol c with
  | some op => Token.operator op :: ts
  | none => ts

/-- Scanner state for `tokAux`.  `outside`: not inside a number match.
`firstRun ds`: inside the leading digit run `[0-9]+` of a number match,
`ds` holding the digits read so far in reverse.  `groupRun d0 gs sep ds`:
inside the digit run of a `(.[0-9]+)` group, after leading run `d0`,
completed groups `gs`, current separator `sep`, current digits `ds` in
reverse. -/
inductive ScanMode where
  | outside
  | firstRun (ds : List Char)
  | groupRun (d0 : List Char) (gs : List (Char × List Char)) (sep : Char) (ds : List Char)

/-- Character-level scanner equivalent to iterating the Rust regex
`([0-9]+(.[0-9]+)*)|([+\-*/%^\(\)])` over the text with `captures_iter`
(main.rs lines 154-170).  The regex engine finds leftmost matches,
preferring more repetitions (greedy); since the first alternative starts
only at a digit and the second only at an operator symbol, this is
exactly: a digit starts a number match consisting of a maximal digit run
followed by maximally many groups of one arbitrary non-newline character
plus a maximal nonempty digit run (the unescaped dot of the pattern,
which does not match a newline); an operator symbol alone is an operator
match; any other character produces nothing.  Each complete number match
is pushed through `f64::from_str(..).unwrap()`, modelled by `emitNum`. -/
def tokAux : ScanMode → List Char → Except Fault (List Token)
  | .outside, [] => .ok []
  | .outside, c :: cs =>
    if c.isDigit then tokAux (.firstRun [c]) cs
    else
      match tokAux .outside cs with
      | .error e => .error e
      | .ok ts => .ok (handleChar c ts)
  | .firstRun ds, [] =>
    match emitNum ds.reverse [] with
    | .error e => .error e
    | .ok t => .ok [t]
  | .firstRun ds, c :: cs =>
    if c.isDigit then tokAux (.firstRun (c :: ds)) cs
    else
      match cs with
      | d :: rest =>
        if (c != '\n') && d.isDigit then
          tokAux (.groupRun ds.reverse [] c [d]) rest
        else
          match emitNum ds.reverse [] with
          | .error e => .error e
          | .ok t =>
            match tokAux .outside (d :: rest) with
            | .error e => .error e
            | .ok ts => .ok (t :: handleChar c ts)
      | [] =>
        match emitNum ds.reverse [] with
        | .error e => .error e
        | .ok t => .ok (t :: handleChar c [])
  | .groupRun d0 gs sep ds, [] =>
    match emitNum d0 (gs ++ [(sep, ds.reverse)]) with
    | .error e => .error e
    | .ok t => .ok [t]
  | .groupRun d0 gs sep ds, c :: cs =>
    if c.isDigit then tokAux (.groupRun d0 gs sep (c :: ds)) cs
    else
      match cs with
      | d :: rest =>
        if (c != '\n') && d.isDigit then
          tokAux (.groupRun d0 (gs ++ [(sep, ds.reverse)]) c [d]) rest
        else
          match emitNum d0 (gs ++ [(sep, ds.reverse)]) with
          | .error e => .error e
          | .ok t =>
            match tokAux .outside (d :: rest) with
            | .error e => .error e
            | .ok ts => .ok (t :: handleChar c ts)
      | [] =>
        match emitNum d0 (gs ++ [(sep, ds.reverse)]) with
        | .error e => .error e
        | .ok t => .ok (t :: handleChar c [])

/-- Mirrors `tokenize` (main.rs lines 154-170), including the panic of
the `unwrap` on a failed float parse, which is the only way it can
fail. -/
def tokenize (s : String) : Except Fault (List Token) :=
  tokAux .outside s.data

/-- Mirrors `first_operator_in_stack` (main.rs lines 172-178).  The
operator stack is kept top-first here, so Rust's `stack[stack.len() - 1]`
is the list head. -/
def first_operator_in_stack (stack : List Operator) : Option Operator :=
  stack.head?

/-- Mirrors `first_non_para_in_stack` (main.rs lines 180-182). -/
def first_non_para_in_stack (stack : List Operator) : Option Operator :=
  (first_operator_in_stack stack).bind fun op =>
    if op ≠ Operator.lpar then some op else none

/-- Mirrors the `Apply` impl for `Vec<f64>` (main.rs lines 188-194): pop
the right operand `x`, pop the left operand `y`, push `op.apply(y, x)`.
The operand stack is kept top-first, so the two pops are the first two
list elements.  `Fault.stackUnderflow` models the `unwrap` panic when
fewer than two operands are available. -/
def applyOp (output : List ℚ) (op : Operator) : Except Fault (List ℚ) :=
  match output with
  | x :: y :: rest => .ok (op.apply y x :: rest)
  | _ => .error .stackUnderflow

/-- Mirrors the right-parenthesis loop of `solve` (main.rs lines 33-40):
pop and apply operators while the stack top is not a left parenthesis;
an empty stack fires the `assert!` (`Fault.unmatchedRPar`); the final
`assert_eq!` pop of the left parenthesis always succeeds, as in the
source. -/
def popUntilLPar : List ℚ → List Operator → Except Fault (List ℚ × List Operator)
  | _, [] => .error .unmatchedRPar
  | output, Operator.lpar :: rest => .ok (output, rest)
  | output, op :: rest =>
    match applyOp output op with
    | .error e => .error e
    | .ok out2 => popUntilLPar out2 rest

/-- Mirrors the binary-operator loop of `solve` (main.rs lines 41-51):
while the stack top is a non-parenthesis operator whose precedence is
strictly greater than the incoming operator's, or equal to it with the
incoming operator left-associative, pop it and apply it to the output
stack. -/
def popWhileHigher (op : Operator) : List ℚ → List Operator → Except Fault (List ℚ × List Operator)
  | output, [] => .ok (output, [])
  | output, top :: rest =>
    if top ≠ Operator.lpar ∧
        (op.precedence < top.precedence ∨
          (top.precedence = op.precedence ∧ op.is_left_associative = true)) then
      match applyOp output top with
      | .error e => .error e
      | .ok out2 => popWhileHigher op out2 rest
    else .ok (output, top :: rest)

/-- Mirrors the token loop of `solve` (main.rs lines 29-56): numbers are
pushed on the output stack, a left parenthesis is pushed on the operator
stack, a right parenthesis runs `popUntilLPar`, and any other operator
runs `popWhileHigher` and is then pushed. -/
def solveLoop : List Token → List ℚ → List Operator → Except Fault (List ℚ × List Operator)
  | [], output, stack => .ok (output, stack)
  | Token.number n :: ts, output, stack => solveLoop ts (n :: output) stack
  | Token.operator Operator.lpar :: ts, output, stack =>
    solveLoop ts output (Operator.lpar :: stack)
  | Token.operator Operator.rpar :: ts, output, stack =>
    match popUntilLPar output stack with
    | .error e => .error e
    | .ok (out2, st2) => solveLoop ts out2 st2
  | Token.operator op :: ts, output, stack =>
    match popWhileHigher op output stack with
    | .error e => .error e
    | .ok (out2, st2) => solveLoop ts out2 (op :: st2)

/-- Mirrors the final drain of `solve` (main.rs lines 58-63): the
operator stack is reversed (our top-first list is already in that order)
and each remaining operator is applied; a remaining left parenthesis
fires the `assert_ne!` (`Fault.unclosedLPar`). -/
def drainStack : List ℚ → List Operator → Except Fault (List ℚ)
  | output, [] => .ok output
  | _, Operator.lpar :: _ => .error .unclosedLPar
  | output, op :: rest =>
    match applyOp output op with
    | .error e => .error e
    | .ok out2 => drainStack out2 rest

/-- Evaluation of a token sequence: the body of `solve` after
tokenization (main.rs lines 26-65).  The final `output[0]` reads the
bottom of the operand stack — the last element of our top-first list —
and its out-of-bounds panic on an empty stack is `Fault.emptyOutput`. -/
def evaluate (tokens : List Token) : Except Fault ℚ :=
  match solveLoop tokens [] [] with
  | .error e => .error e
  | .ok (output, stack) =>
    match drainStack output stack with
    | .error e => .error e
    | .ok final =>
      match final.getLast? with
      | some v => .ok v
      | none => .error .emptyOutput

/-- Mirrors `solve` (main.rs lines 25-66): tokenize, then evaluate. -/
def solve (s : String) : Except Fault ℚ :=
  match tokenize s with
  | .error e => .error e
  | .ok ts => evaluate ts

/-- The full operand stack left at the very end of a run of `solve`,
just before the final `output[0]` read (main.rs line 65); used to state
what `solve` returns when more than one operand remains. -/
def finalStack (s : String) : Except Fault (List ℚ) :=
  match tokenize s with
  | .error e => .error e
  | .ok ts =>
    match solveLoop ts [] [] with
    | .error e => .error e
    | .ok (output, stack) => drainStack output stack

/-- Helper: Add is not a left parenthesis. -/
theorem add_ne_lpar : Operator.add ≠ Operator.lpar := by decide

/-- Helper: Sub is not a left parenthesis. -/
theorem sub_ne_lpar : Operator.sub ≠ Operator.lpar := by decide

/-- Helper: Mul is not a left parenthesis. -/
theorem mul_ne_lpar : Operator.mul ≠ Operator.lpar := by decide

/-- Helper: Div is not a left parenthesis. -/
theorem div_ne_lpar : Operator.div ≠ Operator.lpar := by decide

/-- Helper: Mod is not a left parenthesis. -/
theorem mod_ne_lpar : Operator.mod ≠ Operator.lpar := by decide

/-- Helper: Exp is not a left parenthesis. -/
theorem exp_ne_lpar : Operator.exp ≠ Operator.lpar := by decide

/-- C1: the claim states that `solve` returns the value dictated by
standard operator precedence on every valid expression, in particular
`solve "2+3*4" = 14`, `solve "(2+3)*4" = 20` and
`solve "2+3*4" = solve "2+(3*4)"`.  The code refutes the concrete
examples: because the dot in the number pattern `[0-9]+(.[0-9]+)*` is
unescaped, the whole of `2+3*4` (and `2+3`, and `3*4`) is matched as one
number lexeme, `f64::from_str` rejects it, and the `unwrap` at main.rs
line 161 panics, modelled as `Fault.numberParse`.  The evaluator itself
is not at fault: fed the intended token sequences directly, it returns
14 and 20 exactly as the claim dictates. -/
theorem c1_precedence_examples :
    solve "2+3*4" = Except.error Fault.numberParse ∧
    solve "(2+3)*4" = Except.error Fault.numberParse ∧
    solve "2+(3*4)" = Except.error Fault.numberParse ∧
    evaluate [Token.number 2, Token.operator Operator.add, Token.number 3,
      Token.operator Operator.mul, Token.number 4] = Except.ok 14 ∧
    evaluate [Token.operator Operator.lpar, Token.number 2, Token.operator Operator.add,
      Token.number 3, Token.operator Operator.rpar, Token.operator Operator.mul,
      Token.number 4] = Except.ok 20 := by
  refine ⟨rfl, rfl, rfl, ?_, ?_⟩ <;>
    norm_num [evaluate, solveLoop, popUntilLPar, popWhileHigher, applyOp, drainStack,
      Operator.apply, Operator.precedence, Operator.is_left_associative,
      add_ne_lpar, sub_ne_lpar, mul_ne_lpar, div_ne_lpar, mod_ne_lpar, exp_ne_lpar]

/-- C2: the claim states that the equal-precedence tie-break (pop only
when the incoming operator is left-associative) makes `-` group left and
`^` group right, in particular `solve "10-2-3" = 5` and
`solve "2^3^2" = 512`.  On the code both string examples panic inside
`tokenize` (the unescaped dot merges `10-2-3` and `2^3^2` into single
unparseable number lexemes), modelled as `Fault.numberParse`.  The
tie-break rule of the evaluator is as claimed: fed the corresponding
token sequences directly, it returns 5, i.e. `(10-2)-3`, and 512, i.e.
`2^(3^2)`. -/
theorem c2_associativity :
    solve "10-2-3" = Except.error Fault.numberParse ∧
    solve "2^3^2" = Except.error Fault.numberParse ∧
    evaluate [Token.number 10, Token.operator Operator.sub, Token.number 2,
      Token.operator Operator.sub, Token.number 3] = Except.ok 5 ∧
    evaluate [Token.number 2, Token.operator Operator.exp, Token.number 3,
      Token.operator Operator.exp, Token.number 2] = Except.ok 512 := by
  refine ⟨rfl, rfl, ?_, ?_⟩ <;>
    norm_num [evaluate, solveLoop, popUntilLPar, popWhileHigher, applyOp, drainStack,
      Operator.apply, Operator.precedence, Operator.is_left_associative,
      add_ne_lpar, sub_ne_lpar, mul_ne_lpar, div_ne_lpar, mod_ne_lpar, exp_ne_lpar]

/-- C3: the claim states that applying an operator with fewer than two
operands makes `solve "+2"` and `solve "*"` fail with a typed,
recoverable `StackUnderflow` and never panic.  The code does detect
exactly the underflow condition on these inputs, but it does so by
panicking — the `unwrap` of a `None` pop inside the `Apply` impl for
`Vec<f64>` (main.rs lines 188-194) aborts the process instead of
returning an error value.  `Fault.stackUnderflow` marks that panic
site. -/
theorem c3_underflow :
    solve "+2" = Except.error Fault.stackUnderflow ∧
    solve "*" = Except.error Fault.stackUnderflow :=
  ⟨rfl, rfl⟩

/-- C4: the claim states `solve "(1+2"` fails with a recoverable
`MismatchedParenthesis` and `solve "1+2)"` with a recoverable
`UnmatchedParenthesis`.  On the code neither input even reaches a
parenthesis check: the unescaped dot merges `1+2` into one unparseable
number lexeme and the `unwrap` in `tokenize` panics
(`Fault.numberParse`).  Inputs that do reach the two checks — `"(1"` for
an unclosed left parenthesis, `")"` for an extra right parenthesis — hit
two distinct `assert!`/`assert_ne!` sites (both with the message
"Mismatched parentheses"), which abort the process rather than return a
typed failure; `Fault.unclosedLPar` and `Fault.unmatchedRPar` mark those
two sites. -/
theorem c4_parenthesis :
    solve "(1+2" = Except.error Fault.numberParse ∧
    solve "1+2)" = Except.error Fault.numberParse ∧
    solve "(1" = Except.error Fault.unclosedLPar ∧
    solve ")" = Except.error Fault.unmatchedRPar :=
  ⟨rfl, rfl, rfl, rfl⟩

/-- C5: the claim states that `tokenize` is total on arbitrary text and
never fails.  It is refuted by the code: on `"1a2"` (the spec's own
example of the loose pattern) the number pattern matches the whole
string, `f64::from_str "1a2"` returns an error, and the `unwrap` at
main.rs line 161 panics — inside tokenization, before any evaluation.
The same happens on the ordinary expression `"2+3"`. -/
theorem c5_tokenize_panics :
    tokenize "1a2" = Except.error Fault.numberParse ∧
    tokenize "2+3" = Except.error Fault.numberParse :=
  ⟨rfl, rfl⟩

/-- C6: the claim states `solve ""` fails with a typed `EmptyResult`
rather than panicking.  The code detects the condition — no operand left
at the end — but by panicking: the empty input tokenizes to no tokens,
evaluation ends with an empty output vector, and the index expression
`output[0]` at main.rs line 65 panics out of bounds instead of
returning an error value.  `Fault.emptyOutput` marks that site. -/
theorem c6_empty_input :
    solve "" = Except.error Fault.emptyOutput :=
  rfl

/-- C7: the claim states `solve "1/0"` returns positive infinity under
IEEE-754 semantics.  On the code the division is never reached: the
unescaped dot in the number pattern matches `1/0` as a single number
lexeme, `f64::from_str` rejects it, and the `unwrap` in `tokenize`
panics (`Fault.numberParse`) — the result is a process abort, not
infinity. -/
theorem c7_division_by_zero :
    solve "1/0" = Except.error Fault.numberParse :=
  rfl

/-- C8: the claim states that inserting whitespace or commas between
tokens never changes the result, in particular
`solve "2 + 3" = solve "2+3"`.  The code refutes exactly this example
pair: with the spaces present the number pattern cannot swallow the `+`
(a space followed by `+` is not a separator-digit group), so the input
tokenizes to `2`, `+`, `3` and evaluates to 5; without the spaces the
whole of `2+3` is matched as one number lexeme and the `unwrap` in
`tokenize` panics (`Fault.numberParse`).  The two results differ. -/
theorem c8_whitespace :
    solve "2 + 3" = Except.ok 5 ∧
    solve "2+3" = Except.error Fault.numberParse := by
  constructor
  · have h : tokenize "2 + 3" =
        Except.ok [Token.number 2, Token.operator Operator.add, Token.number 3] := rfl
    unfold solve
    rw [h]
    norm_num [evaluate, solveLoop, popUntilLPar, popWhileHigher, applyOp, drainStack,
      Operator.apply, Operator.precedence, Operator.is_left_associative]
  · rfl

/-- C9: the claim states that `tokenize` and `solve` are deterministic
pure functions of their input string: two calls with the same input
produce the same token sequence and the same result or the same
failure.  The Rust functions hold no state across calls — `solve`
allocates fresh operand and operator stacks per call (main.rs lines
26-27) and `tokenize` builds a fresh token vector (main.rs line 155);
there are no statics or globals — so they embed as pure functions, for
which sameness of output (including which panic fires) under sameness
of input holds definitionally. -/
theorem c9_deterministic (s t : String) (h : s = t) :
    tokenize s = tokenize t ∧ solve s = solve t := by
  subst h
  exact ⟨rfl, rfl⟩

/-- Witness for C9 at the concrete input `"2 + 3"`. -/
theorem c9_deterministic_witness :
    tokenize "2 + 3" = tokenize "2 + 3" ∧ solve "2 + 3" = solve "2 + 3" :=
  c9_deterministic "2 + 3" "2 + 3" rfl

/-- C10, counterexample: the claim states that when evaluation consumes
all operators without error but leaves more than one operand, `solve`
returns the bottom-most, first-pushed operand — "the leftmost number of
the expression".  Input `"(1..2+)..5"` refutes the characterisation:
it tokenizes to `( 1 2 + ) 5` (the lone dots are skipped), the right
parenthesis applies `+` to `1` and `2` while the stack holds only those
two operands, so the bottom of the stack becomes the computed value 3,
and the number 5 is pushed on top of it.  The final stack holds the two
values `[5, 3]` (top first), and `solve` returns 3 — which is neither
the first-pushed operand nor the leftmost number of the expression
(both are 1), nor the top of the stack (5). -/
theorem c10_counterexample :
    tokenize "(1..2+)..5" =
      Except.ok [Token.operator Operator.lpar, Token.number 1, Token.number 2,
        Token.operator Operator.add, Token.operator Operator.rpar, Token.number 5] ∧
    finalStack "(1..2+)..5" = Except.ok [5, 3] ∧
    solve "(1..2+)..5" = Except.ok 3 ∧
    (3 : ℚ) ≠ 1 ∧ (3 : ℚ) ≠ 5 := by
  have h : tokenize "(1..2+)..5" =
      Except.ok [Token.operator Operator.lpar, Token.number 1, Token.number 2,
        Token.operator Operator.add, Token.operator Operator.rpar, Token.number 5] := rfl
  refine ⟨h, ?_, ?_, by norm_num, by norm_num⟩
  · unfold finalStack
    rw [h]
    norm_num [solveLoop, popUntilLPar, popWhileHigher, applyOp, drainStack,
      Operator.apply, Operator.precedence, Operator.is_left_associative, add_ne_lpar]
  · unfold solve
    rw [h]
    norm_num [evaluate, solveLoop, popUntilLPar, popWhileHigher, applyOp, drainStack,
      Operator.apply, Operator.precedence, Operator.is_left_associative, add_ne_lpar]

/-- C10, amended: when a run of `solve` reaches the final read with
operand stack `o` (more than one value left, no error raised), `solve`
returns the bottom-most element of `o` — Rust's `output[0]`, the last
element of our top-first list — rather than failing or returning the
top; that element need not be the leftmost number of the expression,
and the claim's example `"1 2"` instead panics inside `tokenize`. -/
theorem c10_bottom_of_stack (s : String) (ts : List Token) (out : List ℚ)
    (stack : List Operator) (o : List ℚ) (v : ℚ)
    (h1 : tokenize s = Except.ok ts)
    (h2 : solveLoop ts [] [] = Except.ok (out, stack))
    (h3 : drainStack out stack = Except.ok o)
    (_hlen : 1 < o.length)
    (h4 : o.getLast? = some v) :
    solve s = Except.ok v := by
  unfold solve evaluate
  simp only [h1, h2, h3, h4]

/-- Witness for C10's amended theorem at the concrete input `"1..2"`,
whose evaluation leaves the two operands `[2, 1]` (top first) and whose
result is the bottom value 1. -/
theorem c10_bottom_of_stack_witness :
    tokenize "1..2" = Except.ok [Token.number 1, Token.number 2] ∧
    solveLoop [Token.number 1, Token.number 2] [] [] = Except.ok ([2, 1], []) ∧
    drainStack [2, 1] [] = Except.ok [2, 1] ∧
    1 < [(2 : ℚ), 1].length ∧
    [(2 : ℚ), 1].getLast? = some 1 ∧
    solve "1..2" = Except.ok 1 :=
  ⟨rfl, rfl, rfl, by decide, rfl,
    c10_bottom_of_stack "1..2" [Token.number 1, Token.number 2] [2, 1] [] [2, 1] 1
      rfl rfl rfl (by decide) rfl⟩

end Calculator
